import Mathlib

/-!
Verification of the crypto-arbitrage-bot repository.

The repository is a Next.js application with three API routes (prices,
balances, execute-trade) and a dashboard.  Several near-identical variants
of each route coexist in the repository; the claims reference both
`src/app/api/...` files and the unnamed variants `src/unnamed/part_00x`.
This development shallowly embeds the arbitrage scanner
(`src/app/api/prices/route.ts`, first variant), the trade-amount lookup
tables (`src/app/api/prices/route.ts` and `src/app/page.tsx`), the
signature helpers, and the trade-execution route in its two variants:
the enhanced one (`src/unnamed/part_002`, first document) and the simple
one (`src/app/api/execute-trade/route.ts`).

Conventions of the embedding:
* JavaScript numbers are modelled as `ℚ`.  All prices handled by the
  scanner are produced by a `0 < p && p < 5` filter, and the claims are
  stated with matching hypotheses where division could otherwise degenerate.
* A JavaScript string-typed field that may be absent is `Option String`;
  string truthiness (`!s` is false iff the string is non-empty) is
  `jsTruthyStr`.
* A JSON number field that may be absent, empty, or fail `parseFloat`
  is modelled as `Option ℚ` (`none` for all the falsy/NaN cases, `some q`
  for a field parsing to `q`).
* Network I/O is passed in explicitly: a fetch either rejects (abort /
  network failure) or yields an HTTP response whose body either fails text
  extraction, fails JSON parsing, parses to a JS-falsy value, or parses to
  the structured body type of the venue.
-/

namespace ArbBot

/-- JS string truthiness for an optional string value: `undefined`, `null`
and `""` are falsy, every other string is truthy. -/
def jsTruthyStr : Option String → Bool
  | none => false
  | some s => !(s == "")

/-- `suffix.isSuffixOf s` on the underlying character lists; model of
JavaScript `String.prototype.endsWith` (used as `instId.endsWith("-USDT")`
in src/app/api/prices/route.ts:156). -/
def strEndsWith (s suffi : String) : Bool :=
  suffi.data.isSuffixOf s.data

/-- Replace the first occurrence of `pat` in a character list; model of
JavaScript `String.prototype.replace(pat, "")` with a plain-string pattern,
which replaces only the first occurrence
(src/app/api/prices/route.ts:157 `ticker.instId.replace("-USDT", "")`). -/
def replaceFirstDrop (pat : List Char) : List Char → List Char
  | [] => []
  | c :: cs => if pat.isPrefixOf (c :: cs) then (c :: cs).drop pat.length
               else c :: replaceFirstDrop pat cs

/-- JavaScript `s.replace(pat, "")` (first occurrence only). -/
def strReplaceFirst (s pat : String) : String :=
  ⟨replaceFirstDrop pat.data s.data⟩

/-- Model of a JavaScript `Map<string, number>`: an association list in
insertion order with unique keys.  `Map.set` overwrites in place, keeping
the original insertion position (src/app/api/prices/route.ts:160). -/
def mapSet (m : List (String × ℚ)) (k : String) (v : ℚ) : List (String × ℚ) :=
  if (m.lookup k).isSome then m.map (fun p => if p.1 == k then (k, v) else p)
  else m ++ [(k, v)]

/-! ## The opportunity scanner — src/app/api/prices/route.ts (first variant) -/

/-- src/app/api/prices/route.ts:26 `const MIN_PROFIT_PERCENT = 0.5`. -/
def MIN_PROFIT_PERCENT : ℚ := 1/2

/-- src/app/api/prices/route.ts:28 `const MAX_PROFIT_PERCENT = 50`. -/
def MAX_PROFIT_PERCENT : ℚ := 50

/-- src/app/api/prices/route.ts:30 `const MIN_PRICE_DIFF = 0.0001`. -/
def MIN_PRICE_DIFF : ℚ := 1/10000

/-- src/app/api/prices/route.ts:192 `const OKX_FEE = 0.001`. -/
def OKX_FEE : ℚ := 1/1000

/-- src/app/api/prices/route.ts:193 `const KUCOIN_FEE = 0.001`. -/
def KUCOIN_FEE : ℚ := 1/1000

/-- src/app/api/prices/route.ts:255 `minNetProfit: 0.01` /
line 224 `netProfit > 0.01`. -/
def MIN_NET_PROFIT : ℚ := 1/100

/-- The trade-size lookup table of the scanner,
src/app/api/prices/route.ts:203-208. -/
def getTradeAmount (price : ℚ) : ℚ :=
  if price < 1/100 then 100
  else if price < 1/10 then 50
  else if price < 1 then 10
  else 1

/-- The trade-size lookup table of the dashboard, src/app/page.tsx:70-76.
The `price < 0.5` branch is listed after the `0.05 ≤ price < 1` branch,
so it is only reached for `price < 0.05`; the trailing `return 1` is
unreachable for rational inputs. -/
def getTradeAmountPage (price : ℚ) : ℚ :=
  if price > 7/2 then 1
  else if 1 ≤ price ∧ price ≤ 7/2 then 4
  else if 1/20 ≤ price ∧ price < 1 then 8
  else if price < 1/2 then 15
  else 1

/-- One element of the `coins` array assembled by the scanner,
src/app/api/prices/route.ts:227-238. -/
structure Coin where
  symbol : String
  okxPrice : ℚ
  kucoinPrice : ℚ
  priceDiff : ℚ
  profitPercent : ℚ
  netProfit : ℚ
  buyExchange : String
  sellExchange : String
  estimatedAmount : ℚ
  lastUpdated : String
deriving DecidableEq, Repr

/-- The fields of a `Coin` that do not depend on the scan clock. -/
structure CoinCore where
  symbol : String
  okxPrice : ℚ
  kucoinPrice : ℚ
  priceDiff : ℚ
  profitPercent : ℚ
  netProfit : ℚ
  buyExchange : String
  sellExchange : String
  estimatedAmount : ℚ
deriving DecidableEq, Repr

/-- Forget the `lastUpdated` timestamp of a scanned coin. -/
def Coin.core (c : Coin) : CoinCore :=
  ⟨c.symbol, c.okxPrice, c.kucoinPrice, c.priceDiff, c.profitPercent,
   c.netProfit, c.buyExchange, c.sellExchange, c.estimatedAmount⟩

/-- `new Set([...okxPrices.keys()].filter((x) => kucoinPrices.has(x)))`,
src/app/api/prices/route.ts:189.  On maps built by `mapSet` the keys are
already unique, so the `Set` deduplication is a no-op. -/
def commonSymbols (okxPrices kucoinPrices : List (String × ℚ)) : List String :=
  (okxPrices.map Prod.fst).filter (fun s => (kucoinPrices.lookup s).isSome)

/-- The per-symbol computation of the scanner loop,
src/app/api/prices/route.ts:195-238.  `now` is the
`new Date().toISOString()` value stored in `lastUpdated`. -/
def mkCoin (okxPrices kucoinPrices : List (String × ℚ)) (sym now : String) :
    Coin :=
  let okxPrice := (okxPrices.lookup sym).getD 0
  let kucoinPrice := (kucoinPrices.lookup sym).getD 0
  let priceDiff := |okxPrice - kucoinPrice|
  let avgPrice := (okxPrice + kucoinPrice) / 2
  let profitPercent := priceDiff / avgPrice * 100
  let amount := getTradeAmount (min okxPrice kucoinPrice)
  let buyExchange := if okxPrice < kucoinPrice then "OKX" else "KuCoin"
  let sellExchange := if okxPrice < kucoinPrice then "KuCoin" else "OKX"
  let buyPrice := min okxPrice kucoinPrice
  let sellPrice := max okxPrice kucoinPrice
  let buyFee := buyPrice * amount * (if buyExchange = "OKX" then OKX_FEE else KUCOIN_FEE)
  let sellFee := sellPrice * amount * (if sellExchange = "OKX" then OKX_FEE else KUCOIN_FEE)
  let netProfit := (sellPrice - buyPrice) * amount - buyFee - sellFee
  { symbol := sym, okxPrice := okxPrice, kucoinPrice := kucoinPrice,
    priceDiff := priceDiff, profitPercent := profitPercent,
    netProfit := netProfit, buyExchange := buyExchange,
    sellExchange := sellExchange, estimatedAmount := amount,
    lastUpdated := now }

/-- The eligibility predicate `isEligible`,
src/app/api/prices/route.ts:220-224, evaluated on the stored coin fields
(they are the same local values the source tests before pushing). -/
def isEligible (c : Coin) : Bool :=
  decide (MIN_PROFIT_PERCENT ≤ c.profitPercent) &&
  decide (c.profitPercent ≤ MAX_PROFIT_PERCENT) &&
  decide (MIN_PRICE_DIFF ≤ c.priceDiff) &&
  decide (MIN_NET_PROFIT < c.netProfit)

/-- The `coins` array before ranking: the scan loop
src/app/api/prices/route.ts:195-240 pushes each eligible coin. -/
def arbitrageCoins (okxPrices kucoinPrices : List (String × ℚ))
    (now : String) : List Coin :=
  (commonSymbols okxPrices kucoinPrices).filterMap (fun sym =>
    let c := mkCoin okxPrices kucoinPrices sym now
    if isEligible c then some c else none)

/-- Stable descending insertion keyed by `key`: an element is inserted in
front of the first element whose key is not larger. -/
def insertByKeyDesc (key : α → ℚ) (a : α) : List α → List α
  | [] => [a]
  | b :: bs => if key b ≤ key a then a :: b :: bs
               else b :: insertByKeyDesc key a bs

/-- Model of `coins.sort((a, b) => b.profitPercent - a.profitPercent)`
(src/app/api/prices/route.ts:243) as a stable descending sort — ES2019
requires `Array.prototype.sort` to be stable. -/
def sortByKeyDesc (key : α → ℚ) : List α → List α
  | [] => []
  | x :: xs => insertByKeyDesc key x (sortByKeyDesc key xs)

/-- The ranked, truncated opportunity list the scanner returns:
sort descending by profit percentage, then `coins.slice(0, 50)`
(src/app/api/prices/route.ts:243-245). -/
def scanOpportunities (okxPrices kucoinPrices : List (String × ℚ))
    (now : String) : List Coin :=
  (sortByKeyDesc Coin.profitPercent
    (arbitrageCoins okxPrices kucoinPrices now)).take 50

/-- An OKX spot ticker as consumed by the scanner
(src/app/api/prices/route.ts:155-163): `last` is the parsed value of the
`last` string field (`none` when absent, empty, or not a number). -/
structure OkxTicker where
  instId : String
  last : Option ℚ
deriving DecidableEq, Repr

/-- The parsed OKX payload: `okxData.data`, which may be absent or not an
array (src/app/api/prices/route.ts:153). -/
structure OkxPayload where
  data : Option (List OkxTicker)
deriving DecidableEq, Repr

/-- A KuCoin ticker (src/app/api/prices/route.ts:174-182).  The source
reads `ticker.price || ticker.last || ticker.close || "0"` and parses the
first truthy field; each field is `Option ℚ` under the numeric-field
convention and the fallback literal `"0"` parses to `0` (which the
`price > 0` filter then drops). -/
structure KuTicker where
  symbol : String
  price : Option ℚ
  last : Option ℚ
  close : Option ℚ
deriving DecidableEq, Repr

/-- The parsed KuCoin payload after the flexible-structure resolution
`kucoinData.data.ticker || kucoinData.data`
(src/app/api/prices/route.ts:172): `none` when neither shape is an array. -/
structure KuPayload where
  tickerArr : Option (List KuTicker)
deriving DecidableEq, Repr

/-- Build the OKX symbol→price map, src/app/api/prices/route.ts:152-166:
keep `-USDT` instruments whose last price parses with `0 < p < 5`, keyed by
the instrument id with the first `-USDT` removed. -/
def processOKX (payload : OkxPayload) : List (String × ℚ) :=
  match payload.data with
  | none => []
  | some ts =>
    ts.foldl (fun m t =>
      if strEndsWith t.instId "-USDT" then
        match t.last with
        | some p =>
          if 0 < p ∧ p < 5 then mapSet m (strReplaceFirst t.instId "-USDT") p
          else m
        | none => m
      else m) []

/-- Build the KuCoin symbol→price map, src/app/api/prices/route.ts:168-186. -/
def processKuCoin (payload : KuPayload) : List (String × ℚ) :=
  match payload.tickerArr with
  | none => []
  | some ts =>
    ts.foldl (fun m t =>
      if strEndsWith t.symbol "-USDT" then
        let p := ((t.price <|> t.last) <|> t.close).getD 0
        if 0 < p ∧ p < 5 then mapSet m (strReplaceFirst t.symbol "-USDT") p
        else m
      else m) []

/-- The observable outcome of the prices route, src/app/api/prices/route.ts.
`ok` is the 200 body (coins, availability flags computed as `!!okxData` /
`!!kucoinData`, and the `Map.size` symbol counts, lines 244-257);
`serverError` is the catch branch (status 500, `coins: []`, no availability
flags, lines 258-269). -/
inductive PricesResult where
  | ok (coins : List Coin) (okxAvailable kucoinAvailable : Bool)
       (okxCoinsCount kucoinCoinsCount : Nat)
  | serverError (coins : List Coin)
deriving DecidableEq, Repr

/-- The prices route after the two fetches, src/app/api/prices/route.ts:147-269.
`okxData` / `kucoinData` are the parsed fetch results (`none` when every
fetch attempt for that venue failed).  When both are `none` the route
throws `"Both exchange APIs are unavailable"` (line 149), which the
outer catch turns into the 500 error payload. -/
def pricesGET (okxData : Option OkxPayload) (kucoinData : Option KuPayload)
    (now : String) : PricesResult :=
  if okxData.isNone ∧ kucoinData.isNone then .serverError []
  else
    let okxPrices := processOKX (okxData.getD ⟨none⟩)
    let kucoinPrices := processKuCoin (kucoinData.getD ⟨none⟩)
    .ok (scanOpportunities okxPrices kucoinPrices now)
       okxData.isSome kucoinData.isSome okxPrices.length kucoinPrices.length

/-! ## Signature helpers

`crypto.createHmac("sha256", key).update(msg).digest("base64")` is modelled
by an abstract parameter `hmac : String → String → String` taking the key
first and the message second; the claims about the signature helpers are
about which key and which message they feed to it, which is all the source
determines. -/

/-- `createOKXSignature`, src/app/api/execute-trade/route.ts:4-7 (identical
copies in src/app/api/prices/route.ts, src/app/api/balances/route.ts,
src/unnamed/part_002 and src/unnamed/part_003): HMAC over
`timestamp + method + requestPath + body`, keyed by the secret. -/
def createOKXSignature (hmac : String → String → String)
    (timestamp method requestPath body secretKey : String) : String :=
  hmac secretKey (timestamp ++ method ++ requestPath ++ body)

/-- `createKuCoinSignature`, src/app/api/execute-trade/route.ts:9-18
(same message shape as the OKX one). -/
def createKuCoinSignature (hmac : String → String → String)
    (timestamp method requestPath body secretKey : String) : String :=
  hmac secretKey (timestamp ++ method ++ requestPath ++ body)

/-- `createKuCoinPassphraseSignature`, src/app/api/execute-trade/route.ts:20-22
and src/app/api/balances/route.ts:21-28 and src/unnamed/part_002:21-28:
HMAC over the passphrase alone, keyed by the secret. -/
def createKuCoinPassphraseSignature (hmac : String → String → String)
    (passphrase secretKey : String) : String :=
  hmac secretKey passphrase

/-- A JavaScript runtime error raised while evaluating an expression. -/
inductive JsRuntimeError where
  | referenceError (ident : String)
deriving DecidableEq, Repr

/-- `createKuCoinPassphraseSignature` as written in src/unnamed/part_003:21-23:
its body is `crypto.createHmac("sha256", secretKey).update(message).digest("base64")`,
but no `message` is in scope there (`message` is a local constant of the two
order-signature helpers only), so evaluating the `update` argument throws
`ReferenceError: message is not defined` on every call; the `passphrase`
parameter is never used. -/
def createKuCoinPassphraseSignaturePart003 (_passphrase _secretKey : String) :
    Except JsRuntimeError String :=
  .error (.referenceError "message")

/-! ## Order execution — src/unnamed/part_002 (first document) -/

/-- Order side. -/
inductive Side where
  | buy
  | sell
deriving DecidableEq, Repr

/-- Outcome of reading the body of an HTTP response:
`textError` models `response.text()` throwing, `parseError` models
`JSON.parse` throwing, `parsedFalsy` models a body that parses to a JS-falsy
value (the `if (!result)` branch), `parsed` a body parsing to the venue's
structured shape. -/
inductive BodyOutcome (β : Type) where
  | textError
  | parseError
  | parsedFalsy
  | parsed (body : β)
deriving DecidableEq, Repr

/-- Outcome of one `fetch` of an order endpoint: the promise rejects with
an `AbortError` (the 15 s timeout fired), rejects otherwise (network
failure), or resolves to a response with `ok`, `status` and a body. -/
inductive FetchOutcome (β : Type) where
  | abortTimeout
  | networkFailure
  | response (ok : Bool) (status : Nat) (body : BodyOutcome β)
deriving DecidableEq, Repr

/-- One element of OKX's `result.data` array; only `ordId` is inspected for
control flow (`sCode`/`sMsg` feed the human-readable message only and are
elided). -/
structure OkxOrderItem where
  ordId : Option String
deriving DecidableEq, Repr

/-- The parsed OKX order response body: `code`, optional `msg`, optional
`data` array. -/
structure OkxBody where
  code : String
  msg : Option String
  data : Option (List OkxOrderItem)
deriving DecidableEq, Repr

/-- The parsed KuCoin order response body: `code`, optional `msg`/`message`,
optional `data` object with an optional `orderId`. -/
structure KuOrderData where
  orderId : Option String
deriving DecidableEq, Repr

structure KuBody where
  code : String
  msg : Option String
  message : Option String
  data : Option KuOrderData
deriving DecidableEq, Repr

/-- Structured rendering of the `error` strings the order executors return;
each constructor corresponds to one error template of
src/unnamed/part_002 (the human-readable text itself is elided).
`buyFailed` is the synthetic sell-slot descriptor
`"Buy order failed, sell order not executed. Buy error: ${buyResult.error}"`
(src/unnamed/part_002:976), which embeds the buy leg's error
(`buyFailedNull` when that error was `null`, interpolated as `"null"`);
`buyFailedSimple` is the reference-free variant
`"Buy order failed, sell order not executed"` of
src/app/api/execute-trade/route.ts:199; `venueError` is the generic
`"... Error: ${result.msg ...}"` of the simple executors. -/
inductive ErrMsg where
  | missingCredentials
  | insufficientBalance (availableBalance : ℚ)
  | balanceTooLow (availableBalance : ℚ)
  | jsonParseError
  | responseTextError
  | httpError (status : Nat)
  | emptyResponse
  | apiError (code : String)
  | missingOrderId
  | timedOut
  | networkError
  | venueError (msg : Option String)
  | buyFailed (buyError : ErrMsg)
  | buyFailedNull
  | buyFailedSimple
deriving DecidableEq, Repr

/-- The normalized result shape of an order executor
(`{success, orderId?, error, details: {errorType?, reason?}}`). -/
structure OrderResult where
  success : Bool
  orderId : Option String
  error : Option ErrMsg
  errorType : Option String
  reason : Option String
deriving DecidableEq, Repr

/-- A failed `OrderResult` with the given error and `details.errorType`. -/
def mkFail (e : ErrMsg) (t : String) : OrderResult :=
  { success := false, orderId := none, error := some e,
    errorType := some t, reason := none }

/-- The observable content of one outbound order `fetch`:
venue, side, the `sz`/`size` amount string's value, and the value sent in
the venue's passphrase header (`OK-ACCESS-PASSPHRASE` carries the raw
passphrase, `KC-API-PASSPHRASE` the encoded one). -/
structure OrderCall where
  venue : String
  side : Side
  sz : ℚ
  passphraseHeader : String
deriving DecidableEq, Repr

/-- `Math.floor((availableBalance * 0.9) / amount) * amount`, the `maxAmount`
of the balance-limit adjustment (src/unnamed/part_002:82, identical code at
src/unnamed/part_002:428 in `executeKuCoinOrder`). -/
def buyMaxAmount (availableBalance amount : ℚ) : ℚ :=
  (⌊availableBalance * (9/10) / amount⌋ : ℤ) * amount

/-- The amount actually placed on the order after the balance-limit
adjustment for buy orders (src/unnamed/part_002:79-101): `maxAmount` when
it is smaller than the requested amount, the requested amount otherwise. -/
def adjustedAmount (side : Side) (amount availableBalance : ℚ) : ℚ :=
  if side = Side.buy then
    if buyMaxAmount availableBalance amount < amount then
      buyMaxAmount availableBalance amount
    else amount
  else amount

/-- Response handling of the enhanced OKX order executor, after the order
request has been dispatched (src/unnamed/part_002:139-348): classify
timeout/network rejection, text/JSON extraction failures, non-2xx statuses,
falsy bodies, venue-level failure codes (`result.code !== "0"`, line 238),
then require a truthy order id `result.data[0].ordId` (lines 289-302) before
reporting success. -/
def okxDispatch (side : Side) (sz : ℚ) (rawPassphrase : String)
    (resp : FetchOutcome OkxBody) : OrderResult × Option OrderCall :=
  let call : OrderCall := ⟨"OKX", side, sz, rawPassphrase⟩
  match resp with
  | .abortTimeout => (mkFail .timedOut "timeout", some call)
  | .networkFailure => (mkFail .networkError "network_error", some call)
  | .response ok status body =>
    match body with
    | .textError => (mkFail .responseTextError "response_text_error", some call)
    | .parseError => (mkFail .jsonParseError "json_parse_error", some call)
    | .parsedFalsy =>
      if !ok then (mkFail (.httpError status) "http_error", some call)
      else (mkFail .emptyResponse "empty_response", some call)
    | .parsed j =>
      if !ok then (mkFail (.httpError status) "http_error", some call)
      else if j.code ≠ "0" then (mkFail (.apiError j.code) "api_error", some call)
      else
        match j.data with
        | none => (mkFail .missingOrderId "missing_order_id", some call)
        | some items =>
          match items.head? with
          | none => (mkFail .missingOrderId "missing_order_id", some call)
          | some item =>
            if jsTruthyStr item.ordId then
              ({ success := true, orderId := item.ordId, error := none,
                 errorType := none, reason := none }, some call)
            else (mkFail .missingOrderId "missing_order_id", some call)

/-- The enhanced OKX order executor `executeOKXOrder`,
src/unnamed/part_002:31-374: credential validation (lines 42-63), buy-side
balance floor (lines 65-76), buy-amount adjustment with the
`adjustedAmount <= 0` short-circuit (lines 78-101), then dispatch. -/
def executeOKXOrder (side : Side) (amount : ℚ)
    (apiKey secretKey passphrase : Option String) (availableBalance : ℚ)
    (resp : FetchOutcome OkxBody) : OrderResult × Option OrderCall :=
  if ¬(jsTruthyStr apiKey ∧ jsTruthyStr secretKey ∧ jsTruthyStr passphrase) then
    (mkFail .missingCredentials "missing_credentials", none)
  else if side = Side.buy ∧ availableBalance < 1 then
    (mkFail (.insufficientBalance availableBalance) "insufficient_balance", none)
  else if side = Side.buy ∧ buyMaxAmount availableBalance amount < amount ∧
          buyMaxAmount availableBalance amount ≤ 0 then
    (mkFail (.balanceTooLow availableBalance) "insufficient_balance", none)
  else okxDispatch side (adjustedAmount side amount availableBalance)
         (passphrase.getD "") resp

/-- Response handling of the enhanced KuCoin order executor
(src/unnamed/part_002:487-685): as for OKX, with success code `"200000"`
(line 587) and order id `result.data.orderId` (lines 625-639).  The
`KC-API-PASSPHRASE` header carries
`createKuCoinPassphraseSignature(passphrase, secretKey)` (lines 462, 494). -/
def kucoinDispatch (hmac : String → String → String) (side : Side) (sz : ℚ)
    (rawPassphrase rawSecretKey : String) (resp : FetchOutcome KuBody) :
    OrderResult × Option OrderCall :=
  let call : OrderCall :=
    ⟨"KuCoin", side, sz,
     createKuCoinPassphraseSignature hmac rawPassphrase rawSecretKey⟩
  match resp with
  | .abortTimeout => (mkFail .timedOut "timeout", some call)
  | .networkFailure => (mkFail .networkError "network_error", some call)
  | .response ok status body =>
    match body with
    | .textError => (mkFail .responseTextError "response_text_error", some call)
    | .parseError => (mkFail .jsonParseError "json_parse_error", some call)
    | .parsedFalsy =>
      if !ok then (mkFail (.httpError status) "http_error", some call)
      else (mkFail .emptyResponse "empty_response", some call)
    | .parsed j =>
      if !ok then (mkFail (.httpError status) "http_error", some call)
      else if j.code ≠ "200000" then
        (mkFail (.apiError j.code) "api_error", some call)
      else
        match j.data with
        | none => (mkFail .missingOrderId "missing_order_id", some call)
        | some d =>
          if jsTruthyStr d.orderId then
            ({ success := true, orderId := d.orderId, error := none,
               errorType := none, reason := none }, some call)
          else (mkFail .missingOrderId "missing_order_id", some call)

/-- The enhanced KuCoin order executor `executeKuCoinOrder`,
src/unnamed/part_002:377-711, with the same credential / balance-floor /
amount-adjustment preamble as the OKX one (lines 388-447). -/
def executeKuCoinOrder (hmac : String → String → String) (side : Side)
    (amount : ℚ) (apiKey secretKey passphrase : Option String)
    (availableBalance : ℚ) (resp : FetchOutcome KuBody) :
    OrderResult × Option OrderCall :=
  if ¬(jsTruthyStr apiKey ∧ jsTruthyStr secretKey ∧ jsTruthyStr passphrase) then
    (mkFail .missingCredentials "missing_credentials", none)
  else if side = Side.buy ∧ availableBalance < 1 then
    (mkFail (.insufficientBalance availableBalance) "insufficient_balance", none)
  else if side = Side.buy ∧ buyMaxAmount availableBalance amount < amount ∧
          buyMaxAmount availableBalance amount ≤ 0 then
    (mkFail (.balanceTooLow availableBalance) "insufficient_balance", none)
  else kucoinDispatch hmac side (adjustedAmount side amount availableBalance)
         (passphrase.getD "") (secretKey.getD "") resp

/-! ## Order execution — src/app/api/execute-trade/route.ts (simple variant) -/

/-- The catch-branch result of the simple executors
(src/app/api/execute-trade/route.ts:78-85 / 143-150): any thrown error —
rejected fetch, failing `response.json()`, or a property access on a falsy
parsed value — yields `"... Network Error: ..."` with no `errorType`. -/
def routeCatchFail : OrderResult :=
  { success := false, orderId := none, error := some .networkError,
    errorType := none, reason := none }

/-- The simple OKX order executor `executeOKXOrder` of
src/app/api/execute-trade/route.ts:24-86.  It always dispatches the fetch;
a rejected fetch or a throwing `response.json()` (or a `result.code` access
on a falsy parsed value) lands in the catch branch, reported as
`"OKX Network Error"`.  On a parsed body it computes
`success = response.ok && result.code === "0"` (line 65) and reads the
order id by optional chaining `result.data?.[0]?.ordId` — with **no**
missing-order-id check. -/
def routeExecuteOKXOrder (side : Side) (amount : ℚ) (rawPassphrase : String)
    (resp : FetchOutcome OkxBody) : OrderResult × OrderCall :=
  let call : OrderCall := ⟨"OKX", side, amount, rawPassphrase⟩
  match resp with
  | .abortTimeout => (routeCatchFail, call)
  | .networkFailure => (routeCatchFail, call)
  | .response ok _ body =>
    match body with
    | .textError => (routeCatchFail, call)
    | .parseError => (routeCatchFail, call)
    | .parsedFalsy => (routeCatchFail, call)
    | .parsed j =>
      let success := ok && (j.code == "0")
      ({ success := success,
         orderId := (j.data.bind List.head?).bind OkxOrderItem.ordId,
         error := if success then none else some (.venueError j.msg),
         errorType := none, reason := none }, call)

/-- The simple KuCoin order executor `executeKuCoinOrder` of
src/app/api/execute-trade/route.ts:88-151: `success = response.ok &&
result.code === "200000"` (line 130), order id by optional chaining
`result.data?.orderId`, no missing-order-id check. -/
def routeExecuteKuCoinOrder (hmac : String → String → String) (side : Side)
    (amount : ℚ) (rawPassphrase rawSecretKey : String)
    (resp : FetchOutcome KuBody) : OrderResult × OrderCall :=
  let call : OrderCall :=
    ⟨"KuCoin", side, amount,
     createKuCoinPassphraseSignature hmac rawPassphrase rawSecretKey⟩
  match resp with
  | .abortTimeout => (routeCatchFail, call)
  | .networkFailure => (routeCatchFail, call)
  | .response ok _ body =>
    match body with
    | .textError => (routeCatchFail, call)
    | .parseError => (routeCatchFail, call)
    | .parsedFalsy => (routeCatchFail, call)
    | .parsed j =>
      let success := ok && (j.code == "200000")
      ({ success := success,
         orderId := j.data.bind KuOrderData.orderId,
         error := if success then none else some (.venueError j.msg),
         errorType := none, reason := none }, call)

/-! ## The trade-execution route -/

/-- The venue responses the environment would give to each of the four
possible order calls of one trade-execution request. -/
structure ExecEnv where
  okxBuy : FetchOutcome OkxBody
  kuBuy : FetchOutcome KuBody
  okxSell : FetchOutcome OkxBody
  kuSell : FetchOutcome KuBody

/-- The fields of the trade-execution response relevant to the claims
(src/unnamed/part_002:992-1018 / src/app/api/execute-trade/route.ts:206-224):
`success = buyResult.success && sellResult.success`,
`buyExecuted`/`sellExecuted` mirror each leg's own success flag, the order
ids and per-leg errors are copied from the leg results, and `sellReason`
is `details.sell.reason` (`"buy_order_failed"` for the synthetic sell
result). -/
structure TradeOutcome where
  success : Bool
  buyExecuted : Bool
  sellExecuted : Bool
  buyOrderId : Option String
  sellOrderId : Option String
  buyError : Option ErrMsg
  sellError : Option ErrMsg
  sellReason : Option String
deriving DecidableEq, Repr

/-- The observable result of a POST to the trade-execution route:
either one of the early validation / credential / balance error responses
(with its HTTP status and, when present, `details.errorType`), or the full
trade response. -/
inductive PostResult where
  | earlyError (status : Nat) (errorType : Option String)
  | trade (r : TradeOutcome)
deriving DecidableEq, Repr

/-- Assemble the final trade response from the two leg results
(src/unnamed/part_002:992-1018). -/
def mkTradeOutcome (buyResult sellResult : OrderResult) : TradeOutcome :=
  { success := buyResult.success && sellResult.success,
    buyExecuted := buyResult.success,
    sellExecuted := sellResult.success,
    buyOrderId := buyResult.orderId,
    sellOrderId := sellResult.orderId,
    buyError := buyResult.error,
    sellError := sellResult.error,
    sellReason := sellResult.reason }

/-- The error content of the synthetic sell descriptor: the template
`"Buy order failed, sell order not executed. Buy error: ${buyResult.error}"`
(src/unnamed/part_002:976) embeds the buy leg's error (the string `"null"`
when that error was null). -/
def buyFailureDescriptor (buyError : Option ErrMsg) : ErrMsg :=
  match buyError with
  | some e => .buyFailed e
  | none => .buyFailedNull

/-- The synthetic sell result used when the buy leg failed
(src/unnamed/part_002:974-982): `success: false`, an error string embedding
the buy error, `details.reason = "buy_order_failed"`. -/
def syntheticSellResult (buyResult : OrderResult) : OrderResult :=
  { success := false, orderId := none,
    error := some (buyFailureDescriptor buyResult.error),
    errorType := none, reason := some "buy_order_failed" }

/-- The enhanced trade-execution route `POST`, src/unnamed/part_002:766-1043.
In order: input validation (lines 777-828), per-venue credential
configuration checks (lines 853-899), extraction of the two USDT balances
(lines 901-922 — the fetched-and-extracted values are the `okxBalance` /
`kucoinBalance` parameters here), the buy-venue balance floor (lines
924-940), the buy leg, and the sell leg gated on `buyResult.success`
(lines 958-983).  The second component collects the outbound order calls
in dispatch order. -/
def executeTradePOST (hmac : String → String → String) (symbol : String)
    (amount : ℚ) (buyExchange sellExchange : String)
    (okxApiKey okxSecretKey okxPassphrase : Option String)
    (kucoinApiKey kucoinSecretKey kucoinPassphrase : Option String)
    (okxBalance kucoinBalance : ℚ) (env : ExecEnv) :
    PostResult × List OrderCall :=
  if symbol = "" ∨ amount = 0 ∨ buyExchange = "" ∨ sellExchange = "" then
    (.earlyError 400 none, [])
  else if amount ≤ 0 then (.earlyError 400 none, [])
  else if buyExchange ≠ "OKX" ∧ buyExchange ≠ "KuCoin" then
    (.earlyError 400 none, [])
  else if sellExchange ≠ "OKX" ∧ sellExchange ≠ "KuCoin" then
    (.earlyError 400 none, [])
  else if (buyExchange = "OKX" ∨ sellExchange = "OKX") ∧
      ¬(jsTruthyStr okxApiKey ∧ jsTruthyStr okxSecretKey ∧
        jsTruthyStr okxPassphrase) then
    (.earlyError 500 (some "missing_credentials"), [])
  else if (buyExchange = "KuCoin" ∨ sellExchange = "KuCoin") ∧
      ¬(jsTruthyStr kucoinApiKey ∧ jsTruthyStr kucoinSecretKey ∧
        jsTruthyStr kucoinPassphrase) then
    (.earlyError 500 (some "missing_credentials"), [])
  else
    let buyBalance := if buyExchange = "OKX" then okxBalance else kucoinBalance
    if buyBalance < 1 then (.earlyError 400 (some "insufficient_balance"), [])
    else
      let buyStep :=
        if buyExchange = "OKX" then
          executeOKXOrder Side.buy amount okxApiKey okxSecretKey okxPassphrase
            okxBalance env.okxBuy
        else
          executeKuCoinOrder hmac Side.buy amount kucoinApiKey kucoinSecretKey
            kucoinPassphrase kucoinBalance env.kuBuy
      let buyResult := buyStep.1
      if buyResult.success then
        let sellBalance :=
          if sellExchange = "OKX" then okxBalance else kucoinBalance
        let sellStep :=
          if sellExchange = "OKX" then
            executeOKXOrder Side.sell amount okxApiKey okxSecretKey
              okxPassphrase sellBalance env.okxSell
          else
            executeKuCoinOrder hmac Side.sell amount kucoinApiKey
              kucoinSecretKey kucoinPassphrase sellBalance env.kuSell
        (.trade (mkTradeOutcome buyResult sellStep.1),
         buyStep.2.toList ++ sellStep.2.toList)
      else
        (.trade (mkTradeOutcome buyResult (syntheticSellResult buyResult)),
         buyStep.2.toList)

/-- The synthetic sell result of the simple route
(src/app/api/execute-trade/route.ts:197-202): the error text does not embed
the buy error, `details.reason = "buy_order_failed"`. -/
def routeSyntheticSellResult : OrderResult :=
  { success := false, orderId := none, error := some .buyFailedSimple,
    errorType := none, reason := some "buy_order_failed" }

/-- The simple trade-execution route `POST`,
src/app/api/execute-trade/route.ts:153-243: no validation, no credential or
balance checks; buy leg, then sell leg gated on `buyResult.success`
(lines 185-202). -/
def routeExecuteTradePOST (hmac : String → String → String) (amount : ℚ)
    (buyExchange sellExchange : String)
    (okxPassphrase kucoinSecretKey kucoinPassphrase : String)
    (env : ExecEnv) : PostResult × List OrderCall :=
  let buyStep :=
    if buyExchange = "OKX" then
      routeExecuteOKXOrder Side.buy amount okxPassphrase env.okxBuy
    else
      routeExecuteKuCoinOrder hmac Side.buy amount kucoinPassphrase
        kucoinSecretKey env.kuBuy
  let buyResult := buyStep.1
  if buyResult.success then
    let sellStep :=
      if sellExchange = "OKX" then
        routeExecuteOKXOrder Side.sell amount okxPassphrase env.okxSell
      else
        routeExecuteKuCoinOrder hmac Side.sell amount kucoinPassphrase
          kucoinSecretKey env.kuSell
    (.trade (mkTradeOutcome buyResult sellStep.1), [buyStep.2, sellStep.2])
  else
    (.trade (mkTradeOutcome buyResult routeSyntheticSellResult), [buyStep.2])

/-- `!result.data || !result.data[0] || !result.data[0].ordId`
(src/unnamed/part_002:289): the OKX response carries no usable order id. -/
def okxOrderIdMissing (j : OkxBody) : Bool :=
  match j.data with
  | none => true
  | some items =>
    match items.head? with
    | none => true
    | some item => !(jsTruthyStr item.ordId)

/-- `!result.data || !result.data.orderId` (src/unnamed/part_002:626). -/
def kucoinOrderIdMissing (j : KuBody) : Bool :=
  match j.data with
  | none => true
  | some d => !(jsTruthyStr d.orderId)

/-- An arbitrary environment used by concrete executions in witnesses. -/
def stubEnv : ExecEnv :=
  ⟨FetchOutcome.abortTimeout, FetchOutcome.abortTimeout,
   FetchOutcome.abortTimeout, FetchOutcome.abortTimeout⟩

/-- An environment whose OKX order endpoint answers HTTP 200 with venue
failure code `"1"`: the buy leg fails with an `api_error`. -/
def buyFailEnv : ExecEnv :=
  ⟨FetchOutcome.response true 200 (.parsed ⟨"1", none, none⟩),
   FetchOutcome.abortTimeout, FetchOutcome.abortTimeout,
   FetchOutcome.abortTimeout⟩

/-- An environment whose OKX order endpoint answers HTTP 200 with success
code `"0"` but whose single data item carries no `ordId`: the simple
executor of src/app/api/execute-trade/route.ts reports this as a success
without an order id. -/
def noIdEnv : ExecEnv :=
  ⟨FetchOutcome.response true 200 (.parsed ⟨"0", none, some [⟨none⟩]⟩),
   FetchOutcome.abortTimeout, FetchOutcome.abortTimeout,
   FetchOutcome.abortTimeout⟩

/-! ## Helper lemmas about the stable descending sort -/

theorem insertByKeyDesc_perm (key : α → ℚ) (a : α) (l : List α) :
    (insertByKeyDesc key a l).Perm (a :: l) := by
  induction l with
  | nil => simp [insertByKeyDesc]
  | cons b bs ih =>
    simp only [insertByKeyDesc]
    split
    · exact List.Perm.refl _
    · exact (List.Perm.cons b ih).trans (List.Perm.swap a b bs)

theorem sortByKeyDesc_perm (key : α → ℚ) (l : List α) :
    (sortByKeyDesc key l).Perm l := by
  induction l with
  | nil => simp [sortByKeyDesc]
  | cons x xs ih =>
    exact (insertByKeyDesc_perm key x _).trans (List.Perm.cons x ih)

theorem mem_insertByKeyDesc {key : α → ℚ} {a x : α} {l : List α} :
    x ∈ insertByKeyDesc key a l ↔ x = a ∨ x ∈ l := by
  rw [(insertByKeyDesc_perm key a l).mem_iff]
  exact List.mem_cons

theorem insertByKeyDesc_pairwise (key : α → ℚ) (a : α) (l : List α)
    (h : l.Pairwise (fun x y => key y ≤ key x)) :
    (insertByKeyDesc key a l).Pairwise (fun x y => key y ≤ key x) := by
  induction l with
  | nil => simp [insertByKeyDesc]
  | cons b bs ih =>
    rcases List.pairwise_cons.1 h with ⟨hb, hbs⟩
    simp only [insertByKeyDesc]
    split
    · rename_i hba
      refine List.pairwise_cons.2 ⟨?_, h⟩
      intro y hy
      rcases List.mem_cons.1 hy with rfl | hy
      · exact hba
      · exact (hb y hy).trans hba
    · rename_i hba
      refine List.pairwise_cons.2 ⟨?_, ih hbs⟩
      intro y hy
      rcases mem_insertByKeyDesc.1 hy with rfl | hy
      · exact le_of_lt (lt_of_not_le hba)
      · exact hb y hy

theorem sortByKeyDesc_pairwise (key : α → ℚ) (l : List α) :
    (sortByKeyDesc key l).Pairwise (fun x y => key y ≤ key x) := by
  induction l with
  | nil => simp [sortByKeyDesc]
  | cons x xs ih => exact insertByKeyDesc_pairwise key x _ ih

theorem insertByKeyDesc_map (key : α → ℚ) (key₂ : β → ℚ) (f : α → β)
    (hk : ∀ x, key₂ (f x) = key x) (a : α) (l : List α) :
    (insertByKeyDesc key a l).map f = insertByKeyDesc key₂ (f a) (l.map f) := by
  induction l with
  | nil => simp [insertByKeyDesc]
  | cons b bs ih =>
    simp only [insertByKeyDesc, List.map_cons, hk]
    split
    · simp
    · simp [ih]

theorem sortByKeyDesc_map (key : α → ℚ) (key₂ : β → ℚ) (f : α → β)
    (hk : ∀ x, key₂ (f x) = key x) (l : List α) :
    (sortByKeyDesc key l).map f = sortByKeyDesc key₂ (l.map f) := by
  induction l with
  | nil => simp [sortByKeyDesc]
  | cons x xs ih =>
    simp only [sortByKeyDesc, List.map_cons, insertByKeyDesc_map key key₂ f hk, ih]

/-- Membership in the scanner output comes from an eligible coin of the
scan loop. -/
theorem mem_scanOpportunities {okx ku : List (String × ℚ)} {now : String}
    {c : Coin} (hc : c ∈ scanOpportunities okx ku now) :
    ∃ sym, sym ∈ commonSymbols okx ku ∧ isEligible c = true ∧
      c = mkCoin okx ku sym now := by
  have h₁ : c ∈ sortByKeyDesc Coin.profitPercent (arbitrageCoins okx ku now) :=
    List.mem_of_mem_take hc
  have h₂ : c ∈ arbitrageCoins okx ku now :=
    (sortByKeyDesc_perm _ _).mem_iff.1 h₁
  rcases List.mem_filterMap.1 h₂ with ⟨sym, hsym, hsome⟩
  by_cases helig : isEligible (mkCoin okx ku sym now) = true
  · refine ⟨sym, hsym, ?_, ?_⟩
    · simp only [helig, if_true] at hsome
      simp only [Option.some.injEq] at hsome
      simpa [← hsome] using helig
    · simp only [helig, if_true, Option.some.injEq] at hsome
      exact hsome.symm
  · simp only [Bool.not_eq_true] at helig
    simp [helig] at hsome

/-! ## Claim theorems -/

/-- **C7.** The scanner's output list is sorted in descending order of
`profitPercent` and is truncated to at most 50 opportunities
(src/app/api/prices/route.ts:242-245). -/
theorem C7_scan_sorted_and_truncated (okx ku : List (String × ℚ))
    (now : String) :
    (scanOpportunities okx ku now).Pairwise
      (fun a b => b.profitPercent ≤ a.profitPercent) ∧
    (scanOpportunities okx ku now).length ≤ 50 := by
  constructor
  · exact List.Pairwise.sublist (List.take_sublist _ _)
      (sortByKeyDesc_pairwise Coin.profitPercent _)
  · exact List.length_take_le _ _

/-- The dashboard table reduces to non-overlapping bands: the later
`price < 0.5` branch is only reached below `0.05`, and the trailing
`return 1` is unreachable for rational inputs. -/
theorem getTradeAmountPage_eq (p : ℚ) :
    getTradeAmountPage p =
      if p > 7/2 then 1 else if 1 ≤ p then 4 else if 1/20 ≤ p then 8
      else 15 := by
  simp only [getTradeAmountPage, ite_and]
  split_ifs <;> first | rfl | linarith

/-- **C10.** Both trade-amount lookup tables — the scanner's
(src/app/api/prices/route.ts:203-208) and the dashboard's
(src/app/page.tsx:70-76) — are monotonically non-increasing step functions
of the price. -/
theorem C10_tradeAmount_monotone (p₁ p₂ : ℚ) (h : p₁ ≤ p₂) :
    getTradeAmount p₂ ≤ getTradeAmount p₁ ∧
    getTradeAmountPage p₂ ≤ getTradeAmountPage p₁ := by
  constructor
  · simp only [getTradeAmount]
    split_ifs <;> (try simp only [not_lt, not_le] at *) <;> linarith
  · simp only [getTradeAmountPage_eq]
    split_ifs <;> (try simp only [not_lt, not_le, gt_iff_lt] at *) <;> linarith

/-- Witness for C10 at the concrete prices `0 ≤ 1`. -/
theorem C10_tradeAmount_monotone_witness :
    getTradeAmount 1 ≤ getTradeAmount 0 ∧
    getTradeAmountPage 1 ≤ getTradeAmountPage 0 :=
  C10_tradeAmount_monotone 0 1 (by norm_num)

/-- **C2.** Every opportunity emitted by the scanner satisfies
`buyPrice ≤ sellPrice` (the buy venue is whichever venue quotes the lower
price), `0.5 ≤ profitPercent ≤ 50`, `priceDiff ≥ MIN_PRICE_DIFF` and
`netProfit > 0.01`, with `profitPercent = priceDiff / avgPrice × 100` and
`netProfit = (sellPrice − buyPrice) × amount − buyFee − sellFee`
(src/app/api/prices/route.ts:195-245). -/
theorem C2_opportunity_bounds (okx ku : List (String × ℚ)) (now : String)
    (c : Coin) (hc : c ∈ scanOpportunities okx ku now) :
    min c.okxPrice c.kucoinPrice ≤ max c.okxPrice c.kucoinPrice ∧
    c.buyExchange = (if c.okxPrice < c.kucoinPrice then "OKX" else "KuCoin") ∧
    MIN_PROFIT_PERCENT ≤ c.profitPercent ∧
    c.profitPercent ≤ MAX_PROFIT_PERCENT ∧
    MIN_PRICE_DIFF ≤ c.priceDiff ∧
    MIN_NET_PROFIT < c.netProfit ∧
    c.priceDiff = |c.okxPrice - c.kucoinPrice| ∧
    c.profitPercent = c.priceDiff / ((c.okxPrice + c.kucoinPrice) / 2) * 100 ∧
    c.netProfit =
      (max c.okxPrice c.kucoinPrice - min c.okxPrice c.kucoinPrice) *
          c.estimatedAmount -
        min c.okxPrice c.kucoinPrice * c.estimatedAmount *
          (if c.buyExchange = "OKX" then OKX_FEE else KUCOIN_FEE) -
        max c.okxPrice c.kucoinPrice * c.estimatedAmount *
          (if c.sellExchange = "OKX" then OKX_FEE else KUCOIN_FEE) := by
  rcases mem_scanOpportunities hc with ⟨sym, hsym, helig, rfl⟩
  simp only [isEligible, Bool.and_eq_true, decide_eq_true_eq] at helig
  obtain ⟨⟨⟨h₁, h₂⟩, h₃⟩, h₄⟩ := helig
  exact ⟨min_le_max, rfl, h₁, h₂, h₃, h₄, rfl, rfl, rfl⟩

/-- Witness for C2: with OKX quoting `A` at `1` and KuCoin at `1.05`, the
scanner emits the corresponding coin, and C2 yields its profit bounds. -/
theorem C2_opportunity_bounds_witness :
    MIN_PROFIT_PERCENT ≤
      (mkCoin [("A", 1)] [("A", 21/20)] "A" "t").profitPercent ∧
    MIN_NET_PROFIT < (mkCoin [("A", 1)] [("A", 21/20)] "A" "t").netProfit := by
  have hmem : mkCoin [("A", 1)] [("A", 21/20)] "A" "t" ∈
      scanOpportunities [("A", 1)] [("A", 21/20)] "t" := by
    have helig : isEligible (mkCoin [("A", 1)] [("A", 21/20)] "A" "t") = true := by
      simp [isEligible, mkCoin, List.lookup, getTradeAmount,
        MIN_PROFIT_PERCENT, MAX_PROFIT_PERCENT, MIN_PRICE_DIFF,
        MIN_NET_PROFIT, OKX_FEE, KUCOIN_FEE]
      norm_num [abs_of_nonpos]
    simp [scanOpportunities, arbitrageCoins, commonSymbols, List.lookup,
      helig, sortByKeyDesc, insertByKeyDesc]
  have h := C2_opportunity_bounds [("A", 1)] [("A", 21/20)] "t" _ hmem
  exact ⟨h.2.2.1, h.2.2.2.2.2.1⟩

/-- On the two-quote input `OKX: A@1, KuCoin: A@1.05` the scan emits exactly
the one coin for `A`, whatever the clock reads. -/
theorem scan_example_eval (now : String) :
    scanOpportunities [("A", 1)] [("A", 21/20)] now =
      [mkCoin [("A", 1)] [("A", 21/20)] "A" now] := by
  have helig : isEligible (mkCoin [("A", 1)] [("A", 21/20)] "A" now) = true := by
    simp [isEligible, mkCoin, List.lookup, getTradeAmount,
      MIN_PROFIT_PERCENT, MAX_PROFIT_PERCENT, MIN_PRICE_DIFF,
      MIN_NET_PROFIT, OKX_FEE, KUCOIN_FEE]
    norm_num [abs_of_nonpos]
  simp [scanOpportunities, arbitrageCoins, commonSymbols, List.lookup,
    helig, sortByKeyDesc, insertByKeyDesc]

/-- **C9, counterexample.** Two scans over the identical price maps
`OKX: A@1, KuCoin: A@1.05`, run at clock readings `"t1"` and `"t2"`,
produce *different* opportunity lists: each emitted coin stores
`lastUpdated: new Date().toISOString()` (src/app/api/prices/route.ts:237),
which differs between the runs. -/
theorem C9_scanner_idempotence_counterexample :
    scanOpportunities [("A", 1)] [("A", 21/20)] "t1" ≠
      scanOpportunities [("A", 1)] [("A", 21/20)] "t2" := by
  intro h
  rw [scan_example_eval, scan_example_eval] at h
  simp [mkCoin, Coin.mk.injEq] at h

/-- **C9, amended.** Running the scanner twice on identical input price
maps yields opportunity lists that are identical in element order and in
every field *except* `lastUpdated`, which records each run's clock reading;
two runs observing the same clock are fully identical (the scan is a pure
function of the price maps and the clock). -/
theorem C9_scanner_idempotent_up_to_timestamp (okx ku : List (String × ℚ))
    (t₁ t₂ : String) :
    (scanOpportunities okx ku t₁).map Coin.core =
      (scanOpportunities okx ku t₂).map Coin.core ∧
    scanOpportunities okx ku t₁ = scanOpportunities okx ku t₁ := by
  refine ⟨?_, rfl⟩
  unfold scanOpportunities arbitrageCoins
  rw [List.map_take, List.map_take,
    sortByKeyDesc_map Coin.profitPercent CoinCore.profitPercent Coin.core
      (fun _ => rfl),
    sortByKeyDesc_map Coin.profitPercent CoinCore.profitPercent Coin.core
      (fun _ => rfl),
    List.map_filterMap, List.map_filterMap]
  refine congrArg _ (congrArg _ (List.filterMap_congr ?_))
  intro x _
  have heq : isEligible (mkCoin okx ku x t₂) = isEligible (mkCoin okx ku x t₁) :=
    rfl
  by_cases h : isEligible (mkCoin okx ku x t₁) = true
  · simp only [h, heq, if_true]
    rfl
  · simp only [Bool.not_eq_true] at h
    simp [h, heq]

/-- **C8, counterexample.** When both venues return a parseable payload with
an *empty* ticker list, the route answers with an empty opportunity list and
zero symbol counts — but the availability flags are computed as `!!okxData`
/ `!!kucoinData` (src/app/api/prices/route.ts:247-248), so both report the
venue as *available*, not unavailable as the claim states.  (When instead
neither venue returns any payload, line 149 throws and the catch answers
with the 500 error body, which carries no availability flags at all.) -/
theorem C8_empty_data_counterexample :
    pricesGET (some ⟨some []⟩) (some ⟨some []⟩) "t" =
      PricesResult.ok [] true true 0 0 ∧
    pricesGET (some ⟨some []⟩) (some ⟨some []⟩) "t" ≠
      PricesResult.ok [] false false 0 0 := by
  constructor
  · simp [pricesGET, processOKX, processKuCoin, scanOpportunities,
      arbitrageCoins, commonSymbols, sortByKeyDesc]
  · simp [pricesGET, processOKX, processKuCoin, scanOpportunities,
      arbitrageCoins, commonSymbols, sortByKeyDesc]

/-- **C8, amended.** When both venues return payloads whose processed price
maps are empty, the scan returns an empty opportunity list, zero raw-symbol
counts, and *positive* availability flags (they track response presence,
not data content), without raising any exception; when neither venue
returned a payload at all, the route throws internally and the catch
answers with the 500 error body whose coin list is empty (and which carries
no availability flags). -/
theorem C8_empty_data_behaviour :
    (∀ okxP kuP now, processOKX okxP = [] → processKuCoin kuP = [] →
      pricesGET (some okxP) (some kuP) now = PricesResult.ok [] true true 0 0) ∧
    (∀ now, pricesGET none none now = PricesResult.serverError []) := by
  constructor
  · intro okxP kuP now h₁ h₂
    simp [pricesGET, h₁, h₂, scanOpportunities, arbitrageCoins,
      commonSymbols, sortByKeyDesc]
  · intro now
    simp [pricesGET]

/-- Witness for C8 (amended) at the concrete empty-ticker payloads. -/
theorem C8_empty_data_behaviour_witness :
    pricesGET (some ⟨some []⟩) (some ⟨some []⟩) "w" =
      PricesResult.ok [] true true 0 0 :=
  C8_empty_data_behaviour.1 ⟨some []⟩ ⟨some []⟩ "w"
    (by simp [processOKX]) (by simp [processKuCoin])

/-! ## Helper lemmas about the order executors -/

/-- Once dispatch is reached, the OKX executor records exactly one call,
carrying the side, size and raw passphrase it was given. -/
theorem okxDispatch_call (side : Side) (sz : ℚ) (pp : String)
    (resp : FetchOutcome OkxBody) :
    (okxDispatch side sz pp resp).2 = some ⟨"OKX", side, sz, pp⟩ := by
  rcases resp with _ | _ | ⟨ok, status, body⟩
  · rfl
  · rfl
  · rcases body with _ | _ | _ | ⟨code, msg, data⟩
    · rfl
    · rfl
    · cases ok <;> rfl
    · cases ok
      · rfl
      · by_cases hcode : code = "0"
        · subst hcode
          rcases data with _ | items
          · rfl
          · rcases items with _ | ⟨⟨ordId⟩, rest⟩
            · rfl
            · rcases ordId with _ | s
              · rfl
              · by_cases hs : s = ""
                · subst hs
                  rfl
                · simp [okxDispatch, jsTruthyStr, hs]
        · simp [okxDispatch, hcode]

/-- Once dispatch is reached, the KuCoin executor records exactly one call,
whose `KC-API-PASSPHRASE` header is the passphrase MAC. -/
theorem kucoinDispatch_call (hmac : String → String → String) (side : Side)
    (sz : ℚ) (pp sk : String) (resp : FetchOutcome KuBody) :
    (kucoinDispatch hmac side sz pp sk resp).2 =
      some ⟨"KuCoin", side, sz, createKuCoinPassphraseSignature hmac pp sk⟩ := by
  rcases resp with _ | _ | ⟨ok, status, body⟩
  · rfl
  · rfl
  · rcases body with _ | _ | _ | ⟨code, msg, message, data⟩
    · rfl
    · rfl
    · cases ok <;> rfl
    · cases ok
      · rfl
      · by_cases hcode : code = "200000"
        · subst hcode
          rcases data with _ | ⟨ordId⟩
          · rfl
          · rcases ordId with _ | s
            · rfl
            · by_cases hs : s = ""
              · subst hs
                rfl
              · simp [kucoinDispatch, jsTruthyStr, hs]
        · simp [kucoinDispatch, hcode]

/-- The enhanced OKX response handling reports success only with a truthy
(present and non-empty) order id. -/
theorem okxDispatch_success_orderId (side : Side) (sz : ℚ) (pp : String)
    (resp : FetchOutcome OkxBody)
    (h : (okxDispatch side sz pp resp).1.success = true) :
    ∃ oid, (okxDispatch side sz pp resp).1.orderId = some oid ∧ oid ≠ "" := by
  rcases resp with _ | _ | ⟨ok, status, body⟩
  · simp [okxDispatch, mkFail] at h
  · simp [okxDispatch, mkFail] at h
  · rcases body with _ | _ | _ | ⟨code, msg, data⟩
    · simp [okxDispatch, mkFail] at h
    · simp [okxDispatch, mkFail] at h
    · cases ok <;> simp [okxDispatch, mkFail] at h
    · cases ok
      · simp [okxDispatch, mkFail] at h
      · by_cases hcode : code = "0"
        · subst hcode
          rcases data with _ | items
          · simp [okxDispatch, mkFail] at h
          · rcases items with _ | ⟨⟨ordId⟩, rest⟩
            · simp [okxDispatch, mkFail] at h
            · rcases ordId with _ | s
              · simp [okxDispatch, mkFail, jsTruthyStr] at h
              · by_cases hs : s = ""
                · subst hs
                  simp [okxDispatch, mkFail, jsTruthyStr] at h
                · refine ⟨s, ?_, hs⟩
                  simp [okxDispatch, jsTruthyStr, hs]
        · simp [okxDispatch, mkFail, hcode] at h

/-- The enhanced KuCoin response handling reports success only with a truthy
order id. -/
theorem kucoinDispatch_success_orderId (hmac : String → String → String)
    (side : Side) (sz : ℚ) (pp sk : String) (resp : FetchOutcome KuBody)
    (h : (kucoinDispatch hmac side sz pp sk resp).1.success = true) :
    ∃ oid, (kucoinDispatch hmac side sz pp sk resp).1.orderId = some oid ∧
      oid ≠ "" := by
  rcases resp with _ | _ | ⟨ok, status, body⟩
  · simp [kucoinDispatch, mkFail] at h
  · simp [kucoinDispatch, mkFail] at h
  · rcases body with _ | _ | _ | ⟨code, msg, message, data⟩
    · simp [kucoinDispatch, mkFail] at h
    · simp [kucoinDispatch, mkFail] at h
    · cases ok <;> simp [kucoinDispatch, mkFail] at h
    · cases ok
      · simp [kucoinDispatch, mkFail] at h
      · by_cases hcode : code = "200000"
        · subst hcode
          rcases data with _ | ⟨ordId⟩
          · simp [kucoinDispatch, mkFail] at h
          · rcases ordId with _ | s
            · simp [kucoinDispatch, mkFail, jsTruthyStr] at h
            · by_cases hs : s = ""
              · subst hs
                simp [kucoinDispatch, mkFail, jsTruthyStr] at h
              · refine ⟨s, ?_, hs⟩
                simp [kucoinDispatch, jsTruthyStr, hs]
        · simp [kucoinDispatch, mkFail, hcode] at h

/-- A successful enhanced OKX order always carries a confirmed (non-empty)
order id. -/
theorem executeOKXOrder_success_orderId (side : Side) (amount : ℚ)
    (ak sk pp : Option String) (bal : ℚ) (resp : FetchOutcome OkxBody)
    (h : (executeOKXOrder side amount ak sk pp bal resp).1.success = true) :
    ∃ oid, (executeOKXOrder side amount ak sk pp bal resp).1.orderId =
      some oid ∧ oid ≠ "" := by
  unfold executeOKXOrder at h ⊢
  split_ifs at h ⊢ <;>
    first
      | exact okxDispatch_success_orderId _ _ _ _ h
      | simp [mkFail] at h

/-- A successful enhanced KuCoin order always carries a confirmed order id. -/
theorem executeKuCoinOrder_success_orderId (hmac : String → String → String)
    (side : Side) (amount : ℚ) (ak sk pp : Option String) (bal : ℚ)
    (resp : FetchOutcome KuBody)
    (h : (executeKuCoinOrder hmac side amount ak sk pp bal resp).1.success =
      true) :
    ∃ oid, (executeKuCoinOrder hmac side amount ak sk pp bal resp).1.orderId =
      some oid ∧ oid ≠ "" := by
  unfold executeKuCoinOrder at h ⊢
  split_ifs at h ⊢ <;>
    first
      | exact kucoinDispatch_success_orderId _ _ _ _ _ _ h
      | simp [mkFail] at h

/-- Every call the enhanced OKX executor dispatches carries the side it was
invoked with. -/
theorem executeOKXOrder_call_side (side : Side) (amount : ℚ)
    (ak sk pp : Option String) (bal : ℚ) (resp : FetchOutcome OkxBody)
    (c : OrderCall)
    (h : (executeOKXOrder side amount ak sk pp bal resp).2 = some c) :
    c.side = side := by
  unfold executeOKXOrder at h
  split_ifs at h
  rw [okxDispatch_call] at h
  cases h
  rfl

/-- Every call the enhanced KuCoin executor dispatches carries the side it
was invoked with. -/
theorem executeKuCoinOrder_call_side (hmac : String → String → String)
    (side : Side) (amount : ℚ) (ak sk pp : Option String) (bal : ℚ)
    (resp : FetchOutcome KuBody) (c : OrderCall)
    (h : (executeKuCoinOrder hmac side amount ak sk pp bal resp).2 = some c) :
    c.side = side := by
  unfold executeKuCoinOrder at h
  split_ifs at h
  rw [kucoinDispatch_call] at h
  cases h
  rfl

/-- **C4.** For buy orders, the balance-limit adjustment of the enhanced
executors (src/unnamed/part_002:78-101 and 424-447) triggers exactly when
the requested amount (the quote-denominated size the executor receives —
it is handed no price, so the amount itself plays the role of the notional)
exceeds 90% of the available balance; the shrunk amount
`Math.floor((balance*0.9)/amount)*amount` always fits within that fraction;
and whenever the shrunk amount is ≤ 0 both executors fail with an
`insufficient_balance` error before any order call is dispatched. -/
theorem C4_balance_fraction_shrink (amount bal : ℚ) (hamt : 0 < amount)
    (_hbal : 0 ≤ bal) :
    (buyMaxAmount bal amount < amount ↔ 9/10 * bal < amount) ∧
    (buyMaxAmount bal amount < amount →
      buyMaxAmount bal amount ≤ 9/10 * bal) ∧
    (∀ (ak sk pp : Option String) (resp : FetchOutcome OkxBody),
      jsTruthyStr ak = true → jsTruthyStr sk = true → jsTruthyStr pp = true →
      1 ≤ bal → buyMaxAmount bal amount < amount →
      buyMaxAmount bal amount ≤ 0 →
      executeOKXOrder Side.buy amount ak sk pp bal resp =
        (mkFail (.balanceTooLow bal) "insufficient_balance", none)) ∧
    (∀ (hmac : String → String → String) (ak sk pp : Option String)
        (resp : FetchOutcome KuBody),
      jsTruthyStr ak = true → jsTruthyStr sk = true → jsTruthyStr pp = true →
      1 ≤ bal → buyMaxAmount bal amount < amount →
      buyMaxAmount bal amount ≤ 0 →
      executeKuCoinOrder hmac Side.buy amount ak sk pp bal resp =
        (mkFail (.balanceTooLow bal) "insufficient_balance", none)) := by
  refine ⟨?_, ?_, ?_, ?_⟩
  · unfold buyMaxAmount
    rw [mul_lt_iff_lt_one_left hamt,
      show (1 : ℚ) = ((1 : ℤ) : ℚ) from by norm_num, Int.cast_lt,
      Int.floor_lt]
    push_cast
    rw [div_lt_one hamt, mul_comm]
  · intro _
    unfold buyMaxAmount
    have h := mul_le_mul_of_nonneg_right
      (Int.floor_le (bal * (9/10) / amount)) (le_of_lt hamt)
    rw [div_mul_cancel₀ _ (ne_of_gt hamt)] at h
    linarith
  · intro ak sk pp resp hak hsk hpp hb1 hlt hle
    unfold executeOKXOrder
    rw [if_neg (not_not_intro ⟨hak, hsk, hpp⟩),
      if_neg (show ¬(Side.buy = Side.buy ∧ bal < 1) from
        fun hh => absurd hh.2 (not_lt.2 hb1)),
      if_pos ⟨rfl, hlt, hle⟩]
  · intro hmac ak sk pp resp hak hsk hpp hb1 hlt hle
    unfold executeKuCoinOrder
    rw [if_neg (not_not_intro ⟨hak, hsk, hpp⟩),
      if_neg (show ¬(Side.buy = Side.buy ∧ bal < 1) from
        fun hh => absurd hh.2 (not_lt.2 hb1)),
      if_pos ⟨rfl, hlt, hle⟩]

/-- Witness for C4 at `amount = 4`, `bal = 2`: the notional exceeds
`0.9 × 2 = 1.8`, the shrunk amount is `⌊1.8/4⌋·4 = 0`, and the executor
fails with `insufficient_balance` dispatching nothing. -/
theorem C4_balance_fraction_shrink_witness :
    buyMaxAmount 2 4 ≤ 9/10 * 2 ∧
    executeOKXOrder Side.buy 4 (some "k") (some "s") (some "p") 2
        FetchOutcome.abortTimeout =
      (mkFail (.balanceTooLow 2) "insufficient_balance", none) := by
  have h := C4_balance_fraction_shrink 4 2 (by norm_num) (by norm_num)
  have hlt : buyMaxAmount 2 4 < 4 := by norm_num [buyMaxAmount]
  have hle : buyMaxAmount 2 4 ≤ 0 := by norm_num [buyMaxAmount]
  exact ⟨h.2.1 hlt,
    h.2.2.1 (some "k") (some "s") (some "p") FetchOutcome.abortTimeout
      rfl rfl rfl (by norm_num) hlt hle⟩

/-- **C5, amended part.** In the enhanced executors, for both venues, a
response carrying the venue's success code but no usable order id is
classified `missing_order_id` and reported as a failure, and a success
report always carries a confirmed (non-empty) order id
(src/unnamed/part_002:289-302 and 625-639). -/
theorem C5_missing_order_id_is_failure :
    (∀ (side : Side) (sz : ℚ) (pp : String) (resp : FetchOutcome OkxBody),
      (okxDispatch side sz pp resp).1.success = true →
      ∃ oid, (okxDispatch side sz pp resp).1.orderId = some oid ∧ oid ≠ "") ∧
    (∀ (side : Side) (sz : ℚ) (pp : String) (status : Nat) (j : OkxBody),
      j.code = "0" → okxOrderIdMissing j = true →
      (okxDispatch side sz pp
          (.response true status (.parsed j))).1 =
        mkFail .missingOrderId "missing_order_id") ∧
    (∀ (hmac : String → String → String) (side : Side) (sz : ℚ)
        (pp sk : String) (resp : FetchOutcome KuBody),
      (kucoinDispatch hmac side sz pp sk resp).1.success = true →
      ∃ oid, (kucoinDispatch hmac side sz pp sk resp).1.orderId = some oid ∧
        oid ≠ "") ∧
    (∀ (hmac : String → String → String) (side : Side) (sz : ℚ)
        (pp sk : String) (status : Nat) (j : KuBody),
      j.code = "200000" → kucoinOrderIdMissing j = true →
      (kucoinDispatch hmac side sz pp sk
          (.response true status (.parsed j))).1 =
        mkFail .missingOrderId "missing_order_id") := by
  refine ⟨okxDispatch_success_orderId, ?_, kucoinDispatch_success_orderId, ?_⟩
  · intro side sz pp status j hcode hmiss
    obtain ⟨code, msg, data⟩ := j
    simp only at hcode
    subst hcode
    rcases data with _ | items
    · simp [okxDispatch]
    · rcases items with _ | ⟨⟨ordId⟩, rest⟩
      · simp [okxDispatch]
      · simp only [okxOrderIdMissing, List.head?, Bool.not_eq_true'] at hmiss
        simp [okxDispatch, hmiss]
  · intro hmac side sz pp sk status j hcode hmiss
    obtain ⟨code, msg, message, data⟩ := j
    simp only at hcode
    subst hcode
    rcases data with _ | ⟨ordId⟩
    · simp [kucoinDispatch]
    · simp only [kucoinOrderIdMissing, Bool.not_eq_true'] at hmiss
      simp [kucoinDispatch, hmiss]

/-- Witness for C5 (amended): an OKX body with success code `"0"` whose
only data item has no `ordId` is classified `missing_order_id`. -/
theorem C5_missing_order_id_is_failure_witness :
    (okxDispatch Side.buy 1 "pp"
        (.response true 200 (.parsed ⟨"0", none, some [⟨none⟩]⟩))).1 =
      mkFail .missingOrderId "missing_order_id" :=
  C5_missing_order_id_is_failure.2.1 Side.buy 1 "pp" 200
    ⟨"0", none, some [⟨none⟩]⟩ rfl rfl

/-- **C5, counterexample.** The simple OKX executor of
src/app/api/execute-trade/route.ts computes
`success = response.ok && result.code === "0"` (line 65) with no
missing-order-id check: on an HTTP-200 response with success code `"0"`
whose data item carries no `ordId`, it reports `success = true` with
`orderId` undefined — a successful order without a confirmed id,
contradicting the claim for this code path. -/
theorem C5_route_success_without_order_id :
    (routeExecuteOKXOrder Side.buy 1 "pp"
        (.response true 200 (.parsed ⟨"0", none, some [⟨none⟩]⟩))).1.success =
      true ∧
    (routeExecuteOKXOrder Side.buy 1 "pp"
        (.response true 200 (.parsed ⟨"0", none, some [⟨none⟩]⟩))).1.orderId =
      none := by
  constructor
  · rfl
  · rfl

/-- **C6.** In the working copies of `createKuCoinPassphraseSignature`
(src/app/api/execute-trade/route.ts:20-22, src/app/api/balances/route.ts:21-28,
src/unnamed/part_002:21-28) the KuCoin passphrase header value is the
HMAC-SHA256 MAC over the passphrase alone, keyed by the secret key (and
base64-encoded — `hmac` abstracts `createHmac("sha256", key).update(msg)
.digest("base64")`); the enhanced KuCoin executor sends exactly that MAC as
`KC-API-PASSPHRASE`, never the raw passphrase (whenever the MAC differs
from it).  The copy in src/unnamed/part_003:21-23, however, reads an
out-of-scope identifier `message` instead of `passphrase`, so every call of
it throws `ReferenceError` and no MAC over the passphrase is ever
produced there. -/
theorem C6_kucoin_passphrase_mac :
    (∀ (hmac : String → String → String) (p s : String),
      createKuCoinPassphraseSignature hmac p s = hmac s p) ∧
    (∀ (hmac : String → String → String) (side : Side) (sz : ℚ)
        (pp sk : String) (resp : FetchOutcome KuBody),
      (kucoinDispatch hmac side sz pp sk resp).2 =
        some ⟨"KuCoin", side, sz, hmac sk pp⟩) ∧
    (∀ (hmac : String → String → String) (side : Side) (sz : ℚ)
        (pp sk : String) (resp : FetchOutcome KuBody) (c : OrderCall),
      (kucoinDispatch hmac side sz pp sk resp).2 = some c →
      hmac sk pp ≠ pp → c.passphraseHeader ≠ pp) ∧
    (∀ p s : String, createKuCoinPassphraseSignaturePart003 p s =
      Except.error (.referenceError "message")) := by
  refine ⟨fun _ _ _ => rfl, ?_, ?_, fun _ _ => rfl⟩
  · intro hmac side sz pp sk resp
    exact kucoinDispatch_call hmac side sz pp sk resp
  · intro hmac side sz pp sk resp c hc hne
    rw [kucoinDispatch_call] at hc
    cases hc
    exact hne

/-- Witness for C6 with the concrete (toy) MAC `hmac k m = k ++ "." ++ m`:
the dispatched header is the MAC of the passphrase, which differs from the
raw passphrase. -/
theorem C6_kucoin_passphrase_mac_witness :
    (OrderCall.mk "KuCoin" Side.buy 1
        (createKuCoinPassphraseSignature (fun k m => k ++ "." ++ m) "p" "s")
      ).passphraseHeader ≠ "p" :=
  C6_kucoin_passphrase_mac.2.2.1 (fun k m => k ++ "." ++ m) Side.buy 1 "p" "s"
    FetchOutcome.abortTimeout _
    (kucoinDispatch_call (fun k m => k ++ "." ++ m) Side.buy 1 "p" "s"
      FetchOutcome.abortTimeout)
    (by simp)

/-- **C3.** With valid inputs and configured credentials, an available
balance on the buy venue below the 1 USDT floor makes the enhanced
trade-execution route fail fast with an `insufficient_balance` error and
dispatch no order call at all (src/unnamed/part_002:924-940); the same
floor is enforced once more inside each executor for buy orders
(src/unnamed/part_002:65-76 and 411-422), again before any dispatch. -/
theorem C3_insufficient_balance_short_circuit
    (hmac : String → String → String) (symbol : String) (amount : ℚ)
    (buyEx sellEx : String) (oak osk opp kak ksk kpp : Option String)
    (obal kbal : ℚ) (env : ExecEnv)
    (hsym : symbol ≠ "") (hamt : 0 < amount)
    (hbuy : buyEx = "OKX" ∨ buyEx = "KuCoin")
    (hsell : sellEx = "OKX" ∨ sellEx = "KuCoin")
    (hoak : jsTruthyStr oak = true) (hosk : jsTruthyStr osk = true)
    (hopp : jsTruthyStr opp = true) (hkak : jsTruthyStr kak = true)
    (hksk : jsTruthyStr ksk = true) (hkpp : jsTruthyStr kpp = true)
    (hfloor : (if buyEx = "OKX" then obal else kbal) < 1) :
    executeTradePOST hmac symbol amount buyEx sellEx oak osk opp kak ksk kpp
        obal kbal env =
      (.earlyError 400 (some "insufficient_balance"), []) ∧
    (∀ (ak sk pp : Option String) (bal : ℚ) (resp : FetchOutcome OkxBody),
      jsTruthyStr ak = true → jsTruthyStr sk = true → jsTruthyStr pp = true →
      bal < 1 →
      executeOKXOrder Side.buy amount ak sk pp bal resp =
        (mkFail (.insufficientBalance bal) "insufficient_balance", none)) ∧
    (∀ (ak sk pp : Option String) (bal : ℚ) (resp : FetchOutcome KuBody),
      jsTruthyStr ak = true → jsTruthyStr sk = true → jsTruthyStr pp = true →
      bal < 1 →
      executeKuCoinOrder hmac Side.buy amount ak sk pp bal resp =
        (mkFail (.insufficientBalance bal) "insufficient_balance", none)) := by
  refine ⟨?_, ?_, ?_⟩
  · have h₁ : ¬(symbol = "" ∨ amount = 0 ∨ buyEx = "" ∨ sellEx = "") := by
      push_neg
      refine ⟨hsym, ne_of_gt hamt, ?_, ?_⟩
      · rcases hbuy with rfl | rfl <;> simp
      · rcases hsell with rfl | rfl <;> simp
    have h₂ : ¬ amount ≤ 0 := not_le.2 hamt
    have h₃ : ¬(buyEx ≠ "OKX" ∧ buyEx ≠ "KuCoin") := by
      rcases hbuy with rfl | rfl <;> simp
    have h₄ : ¬(sellEx ≠ "OKX" ∧ sellEx ≠ "KuCoin") := by
      rcases hsell with rfl | rfl <;> simp
    have h₅ : ¬((buyEx = "OKX" ∨ sellEx = "OKX") ∧
        ¬(jsTruthyStr oak = true ∧ jsTruthyStr osk = true ∧
          jsTruthyStr opp = true)) :=
      fun hh => hh.2 ⟨hoak, hosk, hopp⟩
    have h₆ : ¬((buyEx = "KuCoin" ∨ sellEx = "KuCoin") ∧
        ¬(jsTruthyStr kak = true ∧ jsTruthyStr ksk = true ∧
          jsTruthyStr kpp = true)) :=
      fun hh => hh.2 ⟨hkak, hksk, hkpp⟩
    unfold executeTradePOST
    rw [if_neg h₁, if_neg h₂, if_neg h₃, if_neg h₄, if_neg h₅, if_neg h₆]
    simp only [if_pos hfloor]
  · intro ak sk pp bal resp hak hsk hpp hb
    unfold executeOKXOrder
    rw [if_neg (not_not_intro ⟨hak, hsk, hpp⟩), if_pos ⟨rfl, hb⟩]
  · intro ak sk pp bal resp hak hsk hpp hb
    unfold executeKuCoinOrder
    rw [if_neg (not_not_intro ⟨hak, hsk, hpp⟩), if_pos ⟨rfl, hb⟩]

/-- Witness for C3: balance `0.5` USDT on the buy venue short-circuits the
route with `insufficient_balance` and an empty call log. -/
theorem C3_insufficient_balance_short_circuit_witness :
    executeTradePOST (fun k m => k ++ "." ++ m) "A" 1 "OKX" "KuCoin"
        (some "a") (some "b") (some "c") (some "d") (some "e") (some "f")
        (1/2) 5 stubEnv =
      (.earlyError 400 (some "insufficient_balance"), []) :=
  (C3_insufficient_balance_short_circuit (fun k m => k ++ "." ++ m) "A" 1
    "OKX" "KuCoin" (some "a") (some "b") (some "c") (some "d") (some "e")
    (some "f") (1/2) 5 stubEnv (by simp) (by norm_num) (Or.inl rfl)
    (Or.inr rfl) rfl rfl rfl rfl rfl rfl (by norm_num)).1

/-- The simple OKX executor always dispatches exactly one call with the
side it was invoked with. -/
theorem routeExecuteOKXOrder_call (side : Side) (amount : ℚ) (pp : String)
    (resp : FetchOutcome OkxBody) :
    (routeExecuteOKXOrder side amount pp resp).2 =
      ⟨"OKX", side, amount, pp⟩ := by
  rcases resp with _ | _ | ⟨ok, status, body⟩
  · rfl
  · rfl
  · rcases body with _ | _ | _ | j <;> rfl

/-- The simple KuCoin executor always dispatches exactly one call with the
side it was invoked with. -/
theorem routeExecuteKuCoinOrder_call (hmac : String → String → String)
    (side : Side) (amount : ℚ) (pp sk : String) (resp : FetchOutcome KuBody) :
    (routeExecuteKuCoinOrder hmac side amount pp sk resp).2 =
      ⟨"KuCoin", side, amount,
        createKuCoinPassphraseSignature hmac pp sk⟩ := by
  rcases resp with _ | _ | ⟨ok, status, body⟩
  · rfl
  · rfl
  · rcases body with _ | _ | _ | j <;> rfl

/-- **C1, counterexample.** The original claim requires the sell leg to be
attempted only if the buy leg reported `success = true` *with a confirmed
order id*, citing both route variants.  In the simple variant the gate
(src/app/api/execute-trade/route.ts:185) is `buyResult.success` alone, and
line 65 reports `success = true` with `orderId` undefined on an HTTP-200
body `{code: "0", data: [{}]}`: on that concrete input the route dispatches
the sell call even though the buy leg carries no order id, so the claim as
stated is false on this cited code path. -/
theorem C1_sell_without_confirmed_id_counterexample :
    (routeExecuteTradePOST (fun k m => k ++ "." ++ m) 1 "OKX" "KuCoin"
        "c" "e" "f" noIdEnv).2.map OrderCall.side = [Side.buy, Side.sell] ∧
    (routeExecuteTradePOST (fun k m => k ++ "." ++ m) 1 "OKX" "KuCoin"
        "c" "e" "f" noIdEnv).1 =
      PostResult.trade
        (mkTradeOutcome
          { success := true, orderId := none, error := none,
            errorType := none, reason := none }
          routeCatchFail) ∧
    (mkTradeOutcome
        { success := true, orderId := none, error := none,
          errorType := none, reason := none }
        routeCatchFail).buyExecuted = true ∧
    (mkTradeOutcome
        { success := true, orderId := none, error := none,
          errorType := none, reason := none }
        routeCatchFail).buyOrderId = none := by
  refine ⟨?_, ?_, rfl, rfl⟩
  · rfl
  · rfl

/-- **C1, amended.** The sell leg is attempted only if the buy leg reported
`success = true`: in the enhanced variant (src/unnamed/part_002:958-983)
necessarily with a confirmed, non-empty order id, while the simple variant
(src/app/api/execute-trade/route.ts:184-202) gates on the success flag
alone and can reach the sell leg without one.  In both variants, whenever
the buy leg fails, no sell order call is dispatched, the trade is reported
failed with the synthetic `"buy_order_failed"` sell descriptor (in the
enhanced variant referencing the buy error), and `sellExecuted = true`
implies `buyExecuted = true`. -/
theorem C1_sell_gate :
    (∀ (hmac : String → String → String) (symbol : String) (amount : ℚ)
        (buyEx sellEx : String) (oak osk opp kak ksk kpp : Option String)
        (obal kbal : ℚ) (env : ExecEnv) (res : PostResult)
        (calls : List OrderCall),
      executeTradePOST hmac symbol amount buyEx sellEx oak osk opp kak ksk
          kpp obal kbal env = (res, calls) →
      ((∃ c ∈ calls, c.side = Side.sell) →
        ∃ r, res = .trade r ∧ r.buyExecuted = true ∧
          ∃ oid, r.buyOrderId = some oid ∧ oid ≠ "") ∧
      (∀ r, res = .trade r → r.buyExecuted = false →
        r.success = false ∧ r.sellExecuted = false ∧
        r.sellReason = some "buy_order_failed" ∧
        r.sellError = some (buyFailureDescriptor r.buyError) ∧
        ∀ c ∈ calls, c.side = Side.buy) ∧
      (∀ r, res = .trade r → r.sellExecuted = true →
        r.buyExecuted = true)) ∧
    (∀ (hmac : String → String → String) (amount : ℚ) (buyEx sellEx : String)
        (opp ksk kpp : String) (env : ExecEnv) (res : PostResult)
        (calls : List OrderCall),
      routeExecuteTradePOST hmac amount buyEx sellEx opp ksk kpp env =
        (res, calls) →
      ((∃ c ∈ calls, c.side = Side.sell) →
        ∃ r, res = .trade r ∧ r.buyExecuted = true) ∧
      (∀ r, res = .trade r → r.buyExecuted = false →
        r.success = false ∧ r.sellExecuted = false ∧
        r.sellReason = some "buy_order_failed" ∧
        r.sellError = some .buyFailedSimple ∧
        ∀ c ∈ calls, c.side = Side.buy) ∧
      (∀ r, res = .trade r → r.sellExecuted = true →
        r.buyExecuted = true)) := by
  constructor
  · intro hmac symbol amount buyEx sellEx oak osk opp kak ksk kpp obal kbal
      env res calls heq
    unfold executeTradePOST at heq
    by_cases h₁ : symbol = "" ∨ amount = 0 ∨ buyEx = "" ∨ sellEx = ""
    · rw [if_pos h₁, Prod.mk.injEq] at heq
      obtain ⟨rfl, rfl⟩ := heq
      exact ⟨by rintro ⟨c, hc, -⟩; simp at hc,
        by intro r hr; simp at hr, by intro r hr; simp at hr⟩
    rw [if_neg h₁] at heq
    by_cases h₂ : amount ≤ 0
    · rw [if_pos h₂, Prod.mk.injEq] at heq
      obtain ⟨rfl, rfl⟩ := heq
      exact ⟨by rintro ⟨c, hc, -⟩; simp at hc,
        by intro r hr; simp at hr, by intro r hr; simp at hr⟩
    rw [if_neg h₂] at heq
    by_cases h₃ : buyEx ≠ "OKX" ∧ buyEx ≠ "KuCoin"
    · rw [if_pos h₃, Prod.mk.injEq] at heq
      obtain ⟨rfl, rfl⟩ := heq
      exact ⟨by rintro ⟨c, hc, -⟩; simp at hc,
        by intro r hr; simp at hr, by intro r hr; simp at hr⟩
    rw [if_neg h₃] at heq
    by_cases h₄ : sellEx ≠ "OKX" ∧ sellEx ≠ "KuCoin"
    · rw [if_pos h₄, Prod.mk.injEq] at heq
      obtain ⟨rfl, rfl⟩ := heq
      exact ⟨by rintro ⟨c, hc, -⟩; simp at hc,
        by intro r hr; simp at hr, by intro r hr; simp at hr⟩
    rw [if_neg h₄] at heq
    by_cases h₅ : (buyEx = "OKX" ∨ sellEx = "OKX") ∧
        ¬(jsTruthyStr oak = true ∧ jsTruthyStr osk = true ∧
          jsTruthyStr opp = true)
    · rw [if_pos h₅, Prod.mk.injEq] at heq
      obtain ⟨rfl, rfl⟩ := heq
      exact ⟨by rintro ⟨c, hc, -⟩; simp at hc,
        by intro r hr; simp at hr, by intro r hr; simp at hr⟩
    rw [if_neg h₅] at heq
    by_cases h₆ : (buyEx = "KuCoin" ∨ sellEx = "KuCoin") ∧
        ¬(jsTruthyStr kak = true ∧ jsTruthyStr ksk = true ∧
          jsTruthyStr kpp = true)
    · rw [if_pos h₆, Prod.mk.injEq] at heq
      obtain ⟨rfl, rfl⟩ := heq
      exact ⟨by rintro ⟨c, hc, -⟩; simp at hc,
        by intro r hr; simp at hr, by intro r hr; simp at hr⟩
    rw [if_neg h₆] at heq
    by_cases h₇ : (if buyEx = "OKX" then obal else kbal) < 1
    · simp only [if_pos h₇, Prod.mk.injEq] at heq
      obtain ⟨rfl, rfl⟩ := heq
      exact ⟨by rintro ⟨c, hc, -⟩; simp at hc,
        by intro r hr; simp at hr, by intro r hr; simp at hr⟩
    simp only [if_neg h₇] at heq
    by_cases hbe : buyEx = "OKX"
    · simp only [if_pos hbe] at heq
      rcases hsucc : (executeOKXOrder Side.buy amount oak osk opp obal
          env.okxBuy).1.success with _ | _
      · simp only [hsucc, Bool.false_eq_true, if_false, Prod.mk.injEq] at heq
        obtain ⟨rfl, rfl⟩ := heq
        refine ⟨?_, ?_, ?_⟩
        · rintro ⟨c, hc, hside⟩
          rw [Option.mem_toList, Option.mem_def] at hc
          have := executeOKXOrder_call_side _ _ _ _ _ _ _ _ hc
          rw [this] at hside
          simp at hside
        · intro r hr _
          rw [PostResult.trade.injEq] at hr
          subst hr
          refine ⟨?_, rfl, rfl, rfl, ?_⟩
          · simp [mkTradeOutcome, syntheticSellResult, hsucc]
          · intro c hc
            rw [Option.mem_toList, Option.mem_def] at hc
            exact executeOKXOrder_call_side _ _ _ _ _ _ _ _ hc
        · intro r hr hsell
          rw [PostResult.trade.injEq] at hr
          subst hr
          simp [mkTradeOutcome, syntheticSellResult] at hsell
      · simp only [hsucc, if_true, Prod.mk.injEq] at heq
        obtain ⟨rfl, rfl⟩ := heq
        obtain ⟨oid, hoid, hne⟩ :=
          executeOKXOrder_success_orderId _ _ _ _ _ _ _ hsucc
        refine ⟨?_, ?_, ?_⟩
        · intro _
          exact ⟨_, rfl, by simp [mkTradeOutcome, hsucc],
            ⟨oid, by simpa [mkTradeOutcome] using hoid, hne⟩⟩
        · intro r hr hbex
          rw [PostResult.trade.injEq] at hr
          subst hr
          simp [mkTradeOutcome, hsucc] at hbex
        · intro r hr _
          rw [PostResult.trade.injEq] at hr
          subst hr
          simp [mkTradeOutcome, hsucc]
    · simp only [if_neg hbe] at heq
      rcases hsucc : (executeKuCoinOrder hmac Side.buy amount kak ksk kpp
          kbal env.kuBuy).1.success with _ | _
      · simp only [hsucc, Bool.false_eq_true, if_false, Prod.mk.injEq] at heq
        obtain ⟨rfl, rfl⟩ := heq
        refine ⟨?_, ?_, ?_⟩
        · rintro ⟨c, hc, hside⟩
          rw [Option.mem_toList, Option.mem_def] at hc
          have := executeKuCoinOrder_call_side _ _ _ _ _ _ _ _ _ hc
          rw [this] at hside
          simp at hside
        · intro r hr _
          rw [PostResult.trade.injEq] at hr
          subst hr
          refine ⟨?_, rfl, rfl, rfl, ?_⟩
          · simp [mkTradeOutcome, syntheticSellResult, hsucc]
          · intro c hc
            rw [Option.mem_toList, Option.mem_def] at hc
            exact executeKuCoinOrder_call_side _ _ _ _ _ _ _ _ _ hc
        · intro r hr hsell
          rw [PostResult.trade.injEq] at hr
          subst hr
          simp [mkTradeOutcome, syntheticSellResult] at hsell
      · simp only [hsucc, if_true, Prod.mk.injEq] at heq
        obtain ⟨rfl, rfl⟩ := heq
        obtain ⟨oid, hoid, hne⟩ :=
          executeKuCoinOrder_success_orderId _ _ _ _ _ _ _ _ hsucc
        refine ⟨?_, ?_, ?_⟩
        · intro _
          exact ⟨_, rfl, by simp [mkTradeOutcome, hsucc],
            ⟨oid, by simpa [mkTradeOutcome] using hoid, hne⟩⟩
        · intro r hr hbex
          rw [PostResult.trade.injEq] at hr
          subst hr
          simp [mkTradeOutcome, hsucc] at hbex
        · intro r hr _
          rw [PostResult.trade.injEq] at hr
          subst hr
          simp [mkTradeOutcome, hsucc]
  · intro hmac amount buyEx sellEx opp ksk kpp env res calls heq
    unfold routeExecuteTradePOST at heq
    by_cases hbe : buyEx = "OKX"
    · simp only [if_pos hbe] at heq
      rcases hsucc : (routeExecuteOKXOrder Side.buy amount opp
          env.okxBuy).1.success with _ | _
      · simp only [hsucc, Bool.false_eq_true, if_false, Prod.mk.injEq] at heq
        obtain ⟨rfl, rfl⟩ := heq
        refine ⟨?_, ?_, ?_⟩
        · rintro ⟨c, hc, hside⟩
          rw [List.mem_singleton] at hc
          subst hc
          rw [routeExecuteOKXOrder_call] at hside
          simp at hside
        · intro r hr _
          rw [PostResult.trade.injEq] at hr
          subst hr
          refine ⟨?_, rfl, rfl, rfl, ?_⟩
          · simp [mkTradeOutcome, routeSyntheticSellResult, hsucc]
          · intro c hc
            rw [List.mem_singleton] at hc
            subst hc
            rw [routeExecuteOKXOrder_call]
        · intro r hr hsell
          rw [PostResult.trade.injEq] at hr
          subst hr
          simp [mkTradeOutcome, routeSyntheticSellResult] at hsell
      · simp only [hsucc, if_true, Prod.mk.injEq] at heq
        obtain ⟨rfl, rfl⟩ := heq
        refine ⟨?_, ?_, ?_⟩
        · intro _
          exact ⟨_, rfl, by simp [mkTradeOutcome, hsucc]⟩
        · intro r hr hbex
          rw [PostResult.trade.injEq] at hr
          subst hr
          simp [mkTradeOutcome, hsucc] at hbex
        · intro r hr _
          rw [PostResult.trade.injEq] at hr
          subst hr
          simp [mkTradeOutcome, hsucc]
    · simp only [if_neg hbe] at heq
      rcases hsucc : (routeExecuteKuCoinOrder hmac Side.buy amount kpp ksk
          env.kuBuy).1.success with _ | _
      · simp only [hsucc, Bool.false_eq_true, if_false, Prod.mk.injEq] at heq
        obtain ⟨rfl, rfl⟩ := heq
        refine ⟨?_, ?_, ?_⟩
        · rintro ⟨c, hc, hside⟩
          rw [List.mem_singleton] at hc
          subst hc
          rw [routeExecuteKuCoinOrder_call] at hside
          simp at hside
        · intro r hr _
          rw [PostResult.trade.injEq] at hr
          subst hr
          refine ⟨?_, rfl, rfl, rfl, ?_⟩
          · simp [mkTradeOutcome, routeSyntheticSellResult, hsucc]
          · intro c hc
            rw [List.mem_singleton] at hc
            subst hc
            rw [routeExecuteKuCoinOrder_call]
        · intro r hr hsell
          rw [PostResult.trade.injEq] at hr
          subst hr
          simp [mkTradeOutcome, routeSyntheticSellResult] at hsell
      · simp only [hsucc, if_true, Prod.mk.injEq] at heq
        obtain ⟨rfl, rfl⟩ := heq
        refine ⟨?_, ?_, ?_⟩
        · intro _
          exact ⟨_, rfl, by simp [mkTradeOutcome, hsucc]⟩
        · intro r hr hbex
          rw [PostResult.trade.injEq] at hr
          subst hr
          simp [mkTradeOutcome, hsucc] at hbex
        · intro r hr _
          rw [PostResult.trade.injEq] at hr
          subst hr
          simp [mkTradeOutcome, hsucc]

/-- Witness for C1: a concrete request whose OKX buy leg fails with venue
code `"1"`; the trade is reported failed with the synthetic sell slot and
only the one buy call was dispatched. -/
theorem C1_sell_gate_witness :
    (mkTradeOutcome (mkFail (.apiError "1") "api_error")
        (syntheticSellResult (mkFail (.apiError "1") "api_error"))).success =
      false ∧
    (mkTradeOutcome (mkFail (.apiError "1") "api_error")
        (syntheticSellResult
          (mkFail (.apiError "1") "api_error"))).sellExecuted = false ∧
    (mkTradeOutcome (mkFail (.apiError "1") "api_error")
        (syntheticSellResult
          (mkFail (.apiError "1") "api_error"))).sellReason =
      some "buy_order_failed" := by
  have heq : executeTradePOST (fun k m => k ++ "." ++ m) "A" 1 "OKX" "KuCoin"
      (some "a") (some "b") (some "c") (some "d") (some "e") (some "f") 5 5
      buyFailEnv =
      (PostResult.trade (mkTradeOutcome (mkFail (.apiError "1") "api_error")
          (syntheticSellResult (mkFail (.apiError "1") "api_error"))),
        [⟨"OKX", Side.buy, 1, "c"⟩]) := by
    norm_num [executeTradePOST, executeOKXOrder, okxDispatch, buyFailEnv,
      jsTruthyStr, buyMaxAmount, adjustedAmount]
    simp [mkFail]
  have h := (C1_sell_gate.1 (fun k m => k ++ "." ++ m) "A" 1 "OKX" "KuCoin"
    (some "a") (some "b") (some "c") (some "d") (some "e") (some "f") 5 5
    buyFailEnv _ _ heq).2.1 _ rfl rfl
  exact ⟨h.1, h.2.1, h.2.2.1⟩

end ArbBot
